import Mathlib

/-!
Verification of the easy-reals backend against its specification.

The development shallowly embeds the controller and service layer of the
repository (NestJS + Prisma) as pure Lean functions over an explicit
database state.  Conventions of the embedding:

* The relational store is a record of lists (`DB`); Prisma `findUnique` /
  `findFirst` become `List.find?`, `update` rewrites the matching rows,
  `create` appends, `delete` filters.  Row ids are generated by the store,
  so creation takes the fresh id as an argument.
* Thrown framework exceptions become `Except` values (`ApiError` at the
  controller boundary, `StoreErr` for Prisma error codes such as P2002 and
  P2025).  Mutating operations return the resulting store alongside the
  result, so a failed operation that wrote nothing returns the store
  unchanged.
* JavaScript truthiness on optional strings / numbers is made explicit by
  the `jsTruthyStr` / `jsOrStr` / `jsOrNat` helpers.
* JSON objects (generation settings and the like) are modelled as
  association lists of string pairs; object spread keeps right-hand keys.
* Timestamps (`createdAt`, `updatedAt`, `lastSyncAt`) are modelled as
  integers where an operation reads them and omitted where only written,
  since no verified property depends on wall-clock time.  Media columns of
  a video that no modelled operation reads are likewise omitted.
-/

deriving instance DecidableEq for Except

/-- JavaScript `x || d` for an optional number: `undefined` and `0` are
falsy and yield the default. -/
def jsOrNat (x : Option Nat) (d : Nat) : Nat :=
  match x with
  | some n => if n = 0 then d else n
  | none => d

/-- JavaScript truthiness of an optional string: `undefined` and the empty
string are falsy. -/
def jsTruthyStr (x : Option String) : Bool :=
  match x with
  | some s => s ≠ ""
  | none => false

/-- JavaScript `x || d` for an optional string. -/
def jsOrStr (x : Option String) (d : String) : String :=
  match x with
  | some s => if s = "" then d else s
  | none => d

/-- JSON objects are modelled as association lists from keys to (opaque)
scalar values rendered as strings. -/
abbrev Settings := List (String × String)

/-- JavaScript object spread `{...a, ...b}`: keys of `b` override keys of
`a`. -/
def jsMergeObj (a b : Settings) : Settings :=
  a.filter (fun p => ¬ b.any (fun q => q.1 = p.1)) ++ b

/-- Prisma error codes surfaced by the store: `p2002` is a
unique-constraint violation, `p2025` a missing target row; `other` stands
for any uncategorized persistence failure. -/
inductive StoreErr where
  | p2002
  | p2025
  | other
deriving DecidableEq, Repr

/-- The HTTP-level failures thrown by the controllers (NestJS exception
classes). `internal` is the generic 500 produced by the exception filter
for errors no controller translates. -/
inductive ApiError where
  | badRequest
  | forbidden
  | notFound
  | conflict
  | internal
deriving DecidableEq, Repr

/-- A user profile row (model `Profile`).  The unique-email constraint
lives in the Prisma schema, which is not part of the sources; its effect
is modelled in `UserService.createProfile`. -/
structure Profile where
  id : String
  email : String
  fullName : Option String
  isActive : Bool
deriving DecidableEq, Repr

/-- A content series row (model `UserSeries`). -/
structure Series where
  id : String
  userId : String
  templateId : Option String
  name : String
  description : Option String
  customPrompt : Option String
  visualStyle : Settings
  voiceSettings : Settings
  musicSettings : Settings
  videoDuration : Nat
  postingFrequency : Nat
  postingSchedule : Settings
  contentStyle : String
  useTrendingTopics : Bool
  isActive : Bool
  totalVideosGenerated : Nat
  totalViews : Nat
  totalLikes : Nat
deriving DecidableEq, Repr

/-- A video row (model `Video`). -/
structure Video where
  id : String
  userId : String
  seriesId : String
  title : String
  description : Option String
  script : String
  promptUsed : String
  tags : List String
  generationSettings : Settings
  status : String
  generationProgress : Nat
  errorMessage : Option String
  videoUrl : Option String
  duration : Option Nat
deriving DecidableEq, Repr

/-- A social post row (model `SocialPost`), carried on its account for the
analytics include. -/
structure SocialPost where
  id : String
  createdAt : Int
  caption : Option String
  publishedAt : Option Int
  viewsCount : Nat
  likesCount : Nat
  commentsCount : Nat
  sharesCount : Nat
  engagementRate : ℚ
deriving DecidableEq, Repr

/-- A social account row (model `SocialAccount`). -/
structure SocialAccount where
  id : String
  userId : String
  platform : String
  platformUserId : String
  username : String
  displayName : Option String
  accessToken : String
  refreshToken : Option String
  followerCount : Option Nat
  profileImageUrl : Option String
  isVerified : Option Bool
  isActive : Bool
  autoPost : Bool
  socialPosts : List SocialPost
deriving DecidableEq, Repr

/-- The relational store. -/
structure DB where
  profiles : List Profile
  userSeries : List Series
  videos : List Video
  socialAccounts : List SocialAccount
deriving DecidableEq, Repr

/-- Prisma `update where id`: rewrite the matching rows (ids are unique in
the real store, so at most one row changes). -/
def updateMatching {α : Type} (l : List α) (p : α → Bool) (a' : α) : List α :=
  l.map (fun w => if p w then a' else w)

namespace SeriesService

/-- getSeriesById: `prisma.userSeries.findUnique({ where: { id } })`. -/
def getSeriesById (db : DB) (id : String) : Option Series :=
  db.userSeries.find? (fun s => s.id = id)

/-- getUserSeries: `prisma.userSeries.findMany({ where: { userId } })`
(ordering by creation time is abstracted away). -/
def getUserSeries (db : DB) (userId : String) : List Series :=
  db.userSeries.filter (fun s => s.userId = userId)

/-- Partial update payload for a series (`UpdateSeriesDto`, every field of
`CreateSeriesDto` optional). -/
structure UpdateSeriesDto where
  name : Option String := none
  description : Option String := none
  templateId : Option String := none
  customPrompt : Option String := none
  visualStyle : Option Settings := none
  voiceSettings : Option Settings := none
  musicSettings : Option Settings := none
  postingFrequency : Option Nat := none
  postingSchedule : Option Settings := none
  videoDuration : Option Nat := none
  contentStyle : Option String := none
  useTrendingTopics : Option Bool := none
  isActive : Option Bool := none
deriving DecidableEq, Repr

/-- Apply the defined fields of an update payload to a row, as Prisma does
with the spread `{ ...data }` (undefined fields are skipped). -/
def applySeriesUpdate (s : Series) (d : UpdateSeriesDto) : Series :=
  { s with
    name := d.name.getD s.name
    description := if d.description.isSome then d.description else s.description
    templateId := if d.templateId.isSome then d.templateId else s.templateId
    customPrompt := if d.customPrompt.isSome then d.customPrompt else s.customPrompt
    visualStyle := d.visualStyle.getD s.visualStyle
    voiceSettings := d.voiceSettings.getD s.voiceSettings
    musicSettings := d.musicSettings.getD s.musicSettings
    postingFrequency := d.postingFrequency.getD s.postingFrequency
    postingSchedule := d.postingSchedule.getD s.postingSchedule
    videoDuration := d.videoDuration.getD s.videoDuration
    contentStyle := d.contentStyle.getD s.contentStyle
    useTrendingTopics := d.useTrendingTopics.getD s.useTrendingTopics
    isActive := d.isActive.getD s.isActive }

/-- updateSeries: `prisma.userSeries.update({ where: { id }, data })`;
the store raises P2025 when the row is absent. -/
def updateSeries (db : DB) (id : String) (d : UpdateSeriesDto) :
    Except StoreErr (Series × DB) :=
  match db.userSeries.find? (fun s => s.id = id) with
  | none => .error .p2025
  | some s =>
    let s' := applySeriesUpdate s d
    .ok (s', { db with userSeries := updateMatching db.userSeries (fun w => w.id = id) s' })

/-- toggleSeriesStatus: write the `isActive` flag. -/
def toggleSeriesStatus (db : DB) (id : String) (isActive : Bool) :
    Except StoreErr (Series × DB) :=
  match db.userSeries.find? (fun s => s.id = id) with
  | none => .error .p2025
  | some s =>
    let s' := { s with isActive := isActive }
    .ok (s', { db with userSeries := updateMatching db.userSeries (fun w => w.id = id) s' })

/-- Stats payload for `updateSeriesStats`: each counter optional. -/
structure StatsUpdate where
  totalVideosGenerated : Option Nat := none
  totalViews : Option Nat := none
  totalLikes : Option Nat := none
deriving DecidableEq, Repr

/-- updateSeriesStats: read the current counters, then write each counter
from the payload when supplied; a missing generated-count defaults to
`current + 1`, missing views/likes keep their current value.  A missing
series raises a plain store error (`throw new Error('Series not found')`). -/
def updateSeriesStats (db : DB) (id : String) (stats : StatsUpdate) :
    Except StoreErr (Series × DB) :=
  match db.userSeries.find? (fun s => s.id = id) with
  | none => .error .other
  | some current =>
    let s' := { current with
      totalVideosGenerated :=
        match stats.totalVideosGenerated with
        | some n => n
        | none => current.totalVideosGenerated + 1
      totalViews := stats.totalViews.getD current.totalViews
      totalLikes := stats.totalLikes.getD current.totalLikes }
    .ok (s', { db with userSeries := updateMatching db.userSeries (fun w => w.id = id) s' })

/-- deleteSeries: `prisma.userSeries.delete({ where: { id } })`. -/
def deleteSeries (db : DB) (id : String) : Except StoreErr (Series × DB) :=
  match db.userSeries.find? (fun s => s.id = id) with
  | none => .error .p2025
  | some s =>
    .ok (s, { db with userSeries := db.userSeries.filter (fun w => w.id ≠ id) })

end SeriesService

namespace VideoService

/-- Creation payload for a video (`createVideo` data argument). -/
structure CreateVideoData where
  userId : String
  seriesId : String
  title : String
  description : Option String
  script : String
  promptUsed : String
  tags : Option (List String)
  generationSettings : Option Settings
deriving DecidableEq, Repr

/-- createVideo: `prisma.video.create`.  `defStatus`/`defProgress` stand
for the schema defaults of the `status` and `generationProgress` columns
(the Prisma schema is not among the sources, so they stay abstract). -/
def createVideo (db : DB) (newId : String) (defStatus : String) (defProgress : Nat)
    (data : CreateVideoData) : Video × DB :=
  let v : Video :=
    { id := newId
      userId := data.userId
      seriesId := data.seriesId
      title := data.title
      description := data.description
      script := data.script
      promptUsed := data.promptUsed
      tags := data.tags.getD []
      generationSettings := data.generationSettings.getD []
      status := defStatus
      generationProgress := defProgress
      errorMessage := none
      videoUrl := none
      duration := none }
  (v, { db with videos := db.videos.concat v })

/-- findVideoById: `prisma.video.findUnique({ where: { id } })`. -/
def findVideoById (db : DB) (id : String) : Option Video :=
  db.videos.find? (fun v => v.id = id)

/-- updateVideoStatus: always writes `status`; writes
`generationProgress` only when the argument is defined
(`progress !== undefined`), and `errorMessage` only when truthy
(`errorMessage && { errorMessage }`, so an empty string is skipped). -/
def updateVideoStatus (db : DB) (id : String) (status : String)
    (progress : Option Nat) (errorMessage : Option String) :
    Except StoreErr (Video × DB) :=
  match db.videos.find? (fun v => v.id = id) with
  | none => .error .p2025
  | some v =>
    let v' := { v with
      status := status
      generationProgress := progress.getD v.generationProgress
      errorMessage := if jsTruthyStr errorMessage then errorMessage else v.errorMessage }
    .ok (v', { db with videos := updateMatching db.videos (fun w => w.id = id) v' })

/-- Content-update payload for a video.  The service's TypeScript
signature declares media columns, but the object is spread verbatim into
the update, and the controller passes metadata fields through it as well;
both field groups appear here. -/
structure VideoContentUpdate where
  title : Option String := none
  description : Option String := none
  script : Option String := none
  tags : Option (List String) := none
  generationSettings : Option Settings := none
  videoUrl : Option String := none
  duration : Option Nat := none
deriving DecidableEq, Repr

/-- updateVideoContent: applies the defined payload fields and
unconditionally sets `status: 'ready'` and `generationProgress: 100`. -/
def updateVideoContent (db : DB) (id : String) (data : VideoContentUpdate) :
    Except StoreErr (Video × DB) :=
  match db.videos.find? (fun v => v.id = id) with
  | none => .error .p2025
  | some v =>
    let v' := { v with
      title := data.title.getD v.title
      description := if data.description.isSome then data.description else v.description
      script := data.script.getD v.script
      tags := data.tags.getD v.tags
      generationSettings := data.generationSettings.getD v.generationSettings
      videoUrl := if data.videoUrl.isSome then data.videoUrl else v.videoUrl
      duration := if data.duration.isSome then data.duration else v.duration
      status := "ready"
      generationProgress := 100 }
    .ok (v', { db with videos := updateMatching db.videos (fun w => w.id = id) v' })

/-- deleteVideo: `prisma.video.delete({ where: { id } })`. -/
def deleteVideo (db : DB) (id : String) : Except StoreErr (Video × DB) :=
  match db.videos.find? (fun v => v.id = id) with
  | none => .error .p2025
  | some v =>
    .ok (v, { db with videos := db.videos.filter (fun w => w.id ≠ id) })

end VideoService

namespace SocialAccountService

/-- Connection payload (`connectAccount` data argument). -/
structure ConnectAccountData where
  userId : String
  platform : String
  platformUserId : String
  username : String
  displayName : Option String
  accessToken : String
  refreshToken : Option String
  followerCount : Option Nat
  profileImageUrl : Option String
  isVerified : Option Bool
  autoPost : Option Bool
deriving DecidableEq, Repr

/-- connectAccount: `prisma.socialAccount.create` (schema defaults:
`isActive` true, `autoPost` false when not supplied). -/
def connectAccount (db : DB) (newId : String) (data : ConnectAccountData) :
    SocialAccount × DB :=
  let a : SocialAccount :=
    { id := newId
      userId := data.userId
      platform := data.platform
      platformUserId := data.platformUserId
      username := data.username
      displayName := data.displayName
      accessToken := data.accessToken
      refreshToken := data.refreshToken
      followerCount := data.followerCount
      profileImageUrl := data.profileImageUrl
      isVerified := data.isVerified
      isActive := true
      autoPost := data.autoPost.getD false
      socialPosts := [] }
  (a, { db with socialAccounts := db.socialAccounts.concat a })

/-- getSocialAccountById: `prisma.socialAccount.findUnique({ where: { id } })`. -/
def getSocialAccountById (db : DB) (id : String) : Option SocialAccount :=
  db.socialAccounts.find? (fun a => a.id = id)

/-- getSocialAccountByPlatform: `findFirst` over
`{ userId, platform, isActive: true }` — only an ACTIVE connection for the
(user, platform) pair is reported. -/
def getSocialAccountByPlatform (db : DB) (userId platform : String) :
    Option SocialAccount :=
  db.socialAccounts.find? (fun a =>
    a.userId = userId ∧ a.platform = platform ∧ a.isActive = true)

/-- Settings-update payload (`UpdateSocialAccountDto`). -/
structure UpdateSocialAccountDto where
  displayName : Option String := none
  accessToken : Option String := none
  refreshToken : Option String := none
  isActive : Option Bool := none
  autoPost : Option Bool := none
  followerCount : Option Nat := none
deriving DecidableEq, Repr

/-- updateSocialAccount: spread the payload over the row. -/
def updateSocialAccount (db : DB) (id : String) (d : UpdateSocialAccountDto) :
    Except StoreErr (SocialAccount × DB) :=
  match db.socialAccounts.find? (fun a => a.id = id) with
  | none => .error .p2025
  | some a =>
    let a' := { a with
      displayName := if d.displayName.isSome then d.displayName else a.displayName
      accessToken := d.accessToken.getD a.accessToken
      refreshToken := if d.refreshToken.isSome then d.refreshToken else a.refreshToken
      isActive := d.isActive.getD a.isActive
      autoPost := d.autoPost.getD a.autoPost
      followerCount := if d.followerCount.isSome then d.followerCount else a.followerCount }
    .ok (a', { db with socialAccounts := updateMatching db.socialAccounts (fun w => w.id = id) a' })

/-- Metric payload for `updateAccountMetrics`. -/
structure AccountMetricsUpdate where
  followerCount : Option Nat := none
  profileImageUrl : Option String := none
  isVerified : Option Bool := none
deriving DecidableEq, Repr

/-- updateAccountMetrics: write the supplied metric fields. -/
def updateAccountMetrics (db : DB) (id : String) (m : AccountMetricsUpdate) :
    Except StoreErr (SocialAccount × DB) :=
  match db.socialAccounts.find? (fun a => a.id = id) with
  | none => .error .p2025
  | some a =>
    let a' := { a with
      followerCount := if m.followerCount.isSome then m.followerCount else a.followerCount
      profileImageUrl := if m.profileImageUrl.isSome then m.profileImageUrl else a.profileImageUrl
      isVerified := if m.isVerified.isSome then m.isVerified else a.isVerified }
    .ok (a', { db with socialAccounts := updateMatching db.socialAccounts (fun w => w.id = id) a' })

/-- toggleAutoPost: write the `autoPost` flag. -/
def toggleAutoPost (db : DB) (id : String) (autoPost : Bool) :
    Except StoreErr (SocialAccount × DB) :=
  match db.socialAccounts.find? (fun a => a.id = id) with
  | none => .error .p2025
  | some a =>
    let a' := { a with autoPost := autoPost }
    .ok (a', { db with socialAccounts := updateMatching db.socialAccounts (fun w => w.id = id) a' })

/-- disconnectAccount: `prisma.socialAccount.delete({ where: { id } })`. -/
def disconnectAccount (db : DB) (id : String) :
    Except StoreErr (SocialAccount × DB) :=
  match db.socialAccounts.find? (fun a => a.id = id) with
  | none => .error .p2025
  | some a =>
    .ok (a, { db with socialAccounts := db.socialAccounts.filter (fun w => w.id ≠ id) })

/-- Summary block of the analytics payload. -/
structure AnalyticsAccountInfo where
  id : String
  platform : String
  username : String
  followerCount : Option Nat
deriving DecidableEq, Repr

/-- Aggregated metrics of the analytics payload. -/
structure AnalyticsMetrics where
  totalPosts : Nat
  totalViews : Nat
  totalLikes : Nat
  totalComments : Nat
  totalShares : Nat
  avgEngagementRate : ℚ
  postsPerDay : ℚ
deriving DecidableEq, Repr

/-- One recent-post entry of the analytics payload. -/
structure AnalyticsRecentPost where
  id : String
  caption : Option String
  publishedAt : Option Int
  viewsCount : Nat
  likesCount : Nat
  engagementRate : ℚ
deriving DecidableEq, Repr

/-- Whole analytics payload of `getAccountAnalytics`. -/
structure AccountAnalytics where
  account : AnalyticsAccountInfo
  metrics : AnalyticsMetrics
  recentPosts : List AnalyticsRecentPost
deriving DecidableEq, Repr

/-- getAccountAnalytics: fetch the account with its posts created within
the lookback window (`createdAt >= now - days`, date arithmetic reduced to
day units), then aggregate.  The engagement rate divides only when both
the post count and the view count are positive, and posts-per-day divides
only when the window is positive. -/
def getAccountAnalytics (db : DB) (accountId : String) (days : Nat) (now : Int) :
    Option AccountAnalytics :=
  match db.socialAccounts.find? (fun a => a.id = accountId) with
  | none => none
  | some account =>
    let startDate : Int := now - (days : Int)
    let posts := account.socialPosts.filter (fun p => startDate ≤ p.createdAt)
    let totalPosts : Nat := posts.length
    let totalViews : Nat := (posts.map (fun p => p.viewsCount)).sum
    let totalLikes : Nat := (posts.map (fun p => p.likesCount)).sum
    let totalComments : Nat := (posts.map (fun p => p.commentsCount)).sum
    let totalShares : Nat := (posts.map (fun p => p.sharesCount)).sum
    let avgEngagement : ℚ :=
      if totalPosts > 0 ∧ totalViews > 0 then
        (((totalLikes : ℚ) + (totalComments : ℚ) + (totalShares : ℚ)) / (totalViews : ℚ)) * 100
      else 0
    some
      { account :=
          { id := account.id
            platform := account.platform
            username := account.username
            followerCount := account.followerCount }
        metrics :=
          { totalPosts := totalPosts
            totalViews := totalViews
            totalLikes := totalLikes
            totalComments := totalComments
            totalShares := totalShares
            avgEngagementRate := avgEngagement
            postsPerDay := if days > 0 then (totalPosts : ℚ) / (days : ℚ) else 0 }
        recentPosts := (posts.take 10).map (fun p =>
          { id := p.id
            caption := p.caption
            publishedAt := p.publishedAt
            viewsCount := p.viewsCount
            likesCount := p.likesCount
            engagementRate := p.engagementRate }) }

end SocialAccountService

namespace UserService

/-- Creation payload for a profile. -/
structure CreateProfileData where
  id : String
  email : String
  fullName : Option String
deriving DecidableEq, Repr

/-- createProfile: `prisma.profile.create`.  Modelled from the spec: the
Prisma schema (not among the sources) declares the profile email unique —
"CONFLICT (duplicate unique key — e.g., ... duplicate profile email)" —
so inserting a duplicate email makes the store raise P2002. -/
def createProfile (db : DB) (data : CreateProfileData) :
    Except StoreErr (Profile × DB) :=
  if db.profiles.any (fun p => p.email = data.email) then
    .error .p2002
  else
    let p : Profile :=
      { id := data.id, email := data.email, fullName := data.fullName, isActive := true }
    .ok (p, { db with profiles := db.profiles.concat p })

end UserService

/-- Pagination metadata (`PaginationMetaDto`). -/
structure PaginationMeta where
  page : Nat
  limit : Nat
  total : Nat
  totalPages : Nat
  hasNext : Bool
  hasPrev : Bool
deriving DecidableEq, Repr

/-- Paginated list response (`PaginatedResponseDto`). -/
structure Paginated (α : Type) where
  data : List α
  meta : PaginationMeta
deriving DecidableEq, Repr

/-- Constructor of `PaginatedResponseDto`: `totalPages` is
`Math.ceil(total / limit)` (real division then ceiling), `hasNext` is
`page < totalPages`, `hasPrev` is `page > 1`. -/
def Paginated.build {α : Type} (data : List α) (total page limit : Nat) :
    Paginated α :=
  let totalPages : Nat := ⌈(total : ℚ) / (limit : ℚ)⌉₊
  { data := data
    meta :=
      { page := page
        limit := limit
        total := total
        totalPages := totalPages
        hasNext := decide (page < totalPages)
        hasPrev := decide (page > 1) } }

/-- JavaScript `hay.includes(needle)` on strings: substring containment. -/
def strIncludes (hay needle : String) : Bool :=
  (List.range (hay.data.length + 1)).any (fun i => needle.data.isPrefixOf (hay.data.drop i))

/-- Query-string pagination parameters (`PaginationDto`). -/
structure PaginationDto where
  page : Option Nat := none
  limit : Option Nat := none
  search : Option String := none
deriving DecidableEq, Repr

/-- Translate a Prisma error the controllers do not handle specially:
P2025 becomes NOT_FOUND, everything else is rethrown and surfaces as the
generic internal error. -/
def remapP2025 (e : StoreErr) : ApiError :=
  match e with
  | .p2025 => .notFound
  | _ => .internal

namespace SeriesController

/-- GET /series/:id — resolve the series, then compare its owner with the
caller (response shaping into `SeriesResponseDto` is omitted: it only
copies fields). -/
def getSeriesById (db : DB) (userId id : String) : Except ApiError Series :=
  match SeriesService.getSeriesById db id with
  | none => .error .notFound
  | some series =>
    if series.userId ≠ userId then .error .forbidden
    else .ok series

/-- GET /series — fetch the caller's series, filter by active flag and
case-insensitive search over name/description in memory, then paginate
with `slice((page-1)*limit, (page-1)*limit + limit)`. -/
def getUserSeries (db : DB) (userId : String) (dto : PaginationDto)
    (isActive : Option Bool) : Paginated Series :=
  let series : List Series := SeriesService.getUserSeries db userId
  let filtered1 : List Series :=
    match isActive with
    | some b => series.filter (fun s => s.isActive = b)
    | none => series
  let filteredSeries : List Series :=
    if jsTruthyStr dto.search then
      let searchTerm := (dto.search.getD "").toLower
      filtered1.filter (fun s =>
        strIncludes s.name.toLower searchTerm ||
        (match s.description with
         | some d => strIncludes d.toLower searchTerm
         | none => false))
    else filtered1
  let page := jsOrNat dto.page 1
  let limit := jsOrNat dto.limit 10
  let startIndex := (page - 1) * limit
  let paginatedSeries := (filteredSeries.drop startIndex).take limit
  Paginated.build paginatedSeries filteredSeries.length page limit

/-- PUT /series/:id — ownership guard, then delegate to the service; a
P2025 raised by the store is remapped to NOT_FOUND. -/
def updateSeries (db : DB) (userId id : String) (dto : SeriesService.UpdateSeriesDto) :
    Except ApiError Series × DB :=
  match SeriesService.getSeriesById db id with
  | none => (.error .notFound, db)
  | some existingSeries =>
    if existingSeries.userId ≠ userId then (.error .forbidden, db)
    else
      match SeriesService.updateSeries db id dto with
      | .error e => (.error (remapP2025 e), db)
      | .ok (s', db') => (.ok s', db')

/-- PUT /series/:id/toggle — ownership guard, then write the flag. -/
def toggleSeriesStatus (db : DB) (userId id : String) (isActive : Bool) :
    Except ApiError Series × DB :=
  match SeriesService.getSeriesById db id with
  | none => (.error .notFound, db)
  | some existingSeries =>
    if existingSeries.userId ≠ userId then (.error .forbidden, db)
    else
      match SeriesService.toggleSeriesStatus db id isActive with
      | .error _ => (.error .internal, db)
      | .ok (s', db') => (.ok s', db')

/-- DELETE /series/:id — ownership guard, then delete; P2025 becomes
NOT_FOUND. -/
def deleteSeries (db : DB) (userId id : String) : Except ApiError Unit × DB :=
  match SeriesService.getSeriesById db id with
  | none => (.error .notFound, db)
  | some existingSeries =>
    if existingSeries.userId ≠ userId then (.error .forbidden, db)
    else
      match SeriesService.deleteSeries db id with
      | .error e => (.error (remapP2025 e), db)
      | .ok (_, db') => (.ok (), db')

/-- Shape of the series analytics payload (placeholder aggregation in the
source; only the fields actually computed are kept). -/
structure SeriesAnalytics where
  seriesId : String
  name : String
  isActive : Bool
  totalViews : Nat
  totalLikes : Nat
deriving DecidableEq, Repr

/-- GET /series/:id/analytics — ownership guard, then project the series
row into the (currently static) analytics shape. -/
def getSeriesAnalytics (db : DB) (userId id : String) :
    Except ApiError SeriesAnalytics :=
  match SeriesService.getSeriesById db id with
  | none => .error .notFound
  | some series =>
    if series.userId ≠ userId then .error .forbidden
    else .ok
      { seriesId := series.id
        name := series.name
        isActive := series.isActive
        totalViews := series.totalViews
        totalLikes := series.totalLikes }

end SeriesController

namespace VideosController

/-- Request body of POST /videos/generate (`GenerateVideoDto`). -/
structure GenerateVideoDto where
  seriesId : String
  topic : Option String := none
  generationSettings : Option Settings := none
  priority : Option String := none
deriving DecidableEq, Repr

/-- POST /videos/generate — resolve the series, guard ownership, reject
inactive series, create the video row, set it to `queued` at progress 0,
and bump the series' generated-count by one.  `newId` is the id the store
assigns to the created row; `defStatus`/`defProgress` are the schema
defaults of the video row (see `VideoService.createVideo`). -/
def generateVideo (db : DB) (userId : String) (dto : GenerateVideoDto)
    (newId : String) (defStatus : String) (defProgress : Nat) :
    Except ApiError Video × DB :=
  match SeriesService.getSeriesById db dto.seriesId with
  | none => (.error .badRequest, db)
  | some series =>
    if series.userId ≠ userId then (.error .forbidden, db)
    else if !series.isActive then (.error .badRequest, db)
    else
      let videoTitle :=
        jsOrStr dto.topic
          (series.name ++ " Episode " ++ toString (series.totalVideosGenerated + 1))
      let prompt :=
        jsOrStr series.customPrompt "Generate engaging video content based on series theme"
      let mergedSettings :=
        jsMergeObj
          (jsMergeObj (jsMergeObj series.visualStyle series.voiceSettings)
            series.musicSettings ++
            [("duration", toString series.videoDuration),
             ("style", series.contentStyle),
             ("useTrending", toString series.useTrendingTopics),
             ("priority", jsOrStr dto.priority "normal")])
          (dto.generationSettings.getD [])
      let videoData : VideoService.CreateVideoData :=
        { userId := userId
          seriesId := dto.seriesId
          title := videoTitle
          description := some ("Auto-generated video for " ++ series.name ++ " series")
          script := "[AI Generated Script - Processing...]"
          promptUsed := prompt
          tags := some [series.name, "ai-generated"]
          generationSettings := some mergedSettings }
      let created := VideoService.createVideo db newId defStatus defProgress videoData
      let video := created.1
      let db1 := created.2
      match VideoService.updateVideoStatus db1 video.id "queued" (some 0) none with
      | .error _ => (.error .internal, db1)
      | .ok (_, db2) =>
        match SeriesService.updateSeriesStats db2 dto.seriesId
            { totalVideosGenerated := some (series.totalVideosGenerated + 1) } with
        | .error _ => (.error .internal, db2)
        | .ok (_, db3) =>
          (.ok { video with status := "queued", generationProgress := 0 }, db3)

/-- GET /videos/:id — resolve the video, then compare its owner with the
caller. -/
def getVideoById (db : DB) (userId id : String) : Except ApiError Video :=
  match VideoService.findVideoById db id with
  | none => .error .notFound
  | some video =>
    if video.userId ≠ userId then .error .forbidden
    else .ok video

/-- Request body of PUT /videos/:id (`UpdateVideoDto`; inherited fields
the operation never reads are omitted). -/
structure UpdateVideoDto where
  status : Option String := none
  generationProgress : Option Nat := none
  errorMessage : Option String := none
  title : Option String := none
  description : Option String := none
  script : Option String := none
  tags : Option (List String) := none
  generationSettings : Option Settings := none
deriving DecidableEq, Repr

/-- The `updateData` object the controller assembles: `title` and
`script` are included when truthy, `description` when defined
(`!== undefined`), `tags` and `generationSettings` when present (arrays
and objects are always truthy). -/
def updateDataOf (dto : UpdateVideoDto) : VideoService.VideoContentUpdate :=
  { title := if jsTruthyStr dto.title then dto.title else none
    description := dto.description
    script := if jsTruthyStr dto.script then dto.script else none
    tags := dto.tags
    generationSettings := dto.generationSettings }

/-- The controller's `Object.keys(updateData).length > 0` check. -/
def hasContentFields (dto : UpdateVideoDto) : Bool :=
  (updateDataOf dto).title.isSome ||
  (updateDataOf dto).description.isSome ||
  (updateDataOf dto).script.isSome ||
  (updateDataOf dto).tags.isSome ||
  (updateDataOf dto).generationSettings.isSome

/-- PUT /videos/:id — ownership guard, then: the status-update service
call runs only when a status was supplied; the content-update call runs
only when the assembled `updateData` is non-empty; finally the row is
re-fetched (the source dereferences the re-fetched row without a null
check, so a vanished row surfaces as an internal fault).  A P2025 from
either update is remapped to NOT_FOUND. -/
def updateVideo (db : DB) (userId id : String) (dto : UpdateVideoDto) :
    Except ApiError Video × DB :=
  match VideoService.findVideoById db id with
  | none => (.error .notFound, db)
  | some existingVideo =>
    if existingVideo.userId ≠ userId then (.error .forbidden, db)
    else
      let step1 : Except StoreErr DB :=
        match dto.status with
        | some st =>
          (VideoService.updateVideoStatus db id st dto.generationProgress dto.errorMessage).map
            (fun r => r.2)
        | none => .ok db
      match step1 with
      | .error e => (.error (remapP2025 e), db)
      | .ok db1 =>
        let step2 : Except StoreErr DB :=
          if hasContentFields dto then
            (VideoService.updateVideoContent db1 id (updateDataOf dto)).map (fun r => r.2)
          else .ok db1
        match step2 with
        | .error e => (.error (remapP2025 e), db1)
        | .ok db2 =>
          match VideoService.findVideoById db2 id with
          | some updatedVideo => (.ok updatedVideo, db2)
          | none => (.error .internal, db2)

/-- DELETE /videos/:id — ownership guard, then delete; P2025 becomes
NOT_FOUND. -/
def deleteVideo (db : DB) (userId id : String) : Except ApiError Unit × DB :=
  match VideoService.findVideoById db id with
  | none => (.error .notFound, db)
  | some existingVideo =>
    if existingVideo.userId ≠ userId then (.error .forbidden, db)
    else
      match VideoService.deleteVideo db id with
      | .error e => (.error (remapP2025 e), db)
      | .ok (_, db') => (.ok (), db')

end VideosController

namespace SocialController

/-- Request body of POST /social-accounts/connect
(`ConnectSocialAccountDto`). -/
structure ConnectSocialAccountDto where
  platform : String
  platformUserId : String
  username : String
  displayName : Option String := none
  accessToken : String
  refreshToken : Option String := none
  followerCount : Option Nat := none
  profileImageUrl : Option String := none
  isVerified : Option Bool := none
  autoPost : Option Bool := none
deriving DecidableEq, Repr

/-- POST /social-accounts/connect — pre-check for an existing ACTIVE
connection of the same (user, platform); a hit is rejected with CONFLICT
before any insert.  A P2002 raised by the insert itself is also
translated to CONFLICT. -/
def connectSocialAccount (db : DB) (userId : String)
    (dto : ConnectSocialAccountDto) (newId : String) :
    Except ApiError SocialAccount × DB :=
  match SocialAccountService.getSocialAccountByPlatform db userId dto.platform with
  | some _ => (.error .conflict, db)
  | none =>
    let created := SocialAccountService.connectAccount db newId
      { userId := userId
        platform := dto.platform
        platformUserId := dto.platformUserId
        username := dto.username
        displayName := dto.displayName
        accessToken := dto.accessToken
        refreshToken := dto.refreshToken
        followerCount := dto.followerCount
        profileImageUrl := dto.profileImageUrl
        isVerified := dto.isVerified
        autoPost := dto.autoPost }
    (.ok created.1, created.2)

/-- GET /social-accounts/:id — resolve the account, then compare its
owner with the caller. -/
def getSocialAccountById (db : DB) (userId id : String) :
    Except ApiError SocialAccount :=
  match SocialAccountService.getSocialAccountById db id with
  | none => .error .notFound
  | some account =>
    if account.userId ≠ userId then .error .forbidden
    else .ok account

/-- PUT /social-accounts/:id — ownership guard, then spread the payload;
P2025 becomes NOT_FOUND. -/
def updateSocialAccount (db : DB) (userId id : String)
    (dto : SocialAccountService.UpdateSocialAccountDto) :
    Except ApiError SocialAccount × DB :=
  match SocialAccountService.getSocialAccountById db id with
  | none => (.error .notFound, db)
  | some existingAccount =>
    if existingAccount.userId ≠ userId then (.error .forbidden, db)
    else
      match SocialAccountService.updateSocialAccount db id dto with
      | .error e => (.error (remapP2025 e), db)
      | .ok (a', db') => (.ok a', db')

/-- PUT /social-accounts/:id/toggle-auto-post — ownership guard, then
write the flag. -/
def toggleAutoPost (db : DB) (userId id : String) (autoPost : Bool) :
    Except ApiError SocialAccount × DB :=
  match SocialAccountService.getSocialAccountById db id with
  | none => (.error .notFound, db)
  | some existingAccount =>
    if existingAccount.userId ≠ userId then (.error .forbidden, db)
    else
      match SocialAccountService.toggleAutoPost db id autoPost with
      | .error _ => (.error .internal, db)
      | .ok (a', db') => (.ok a', db')

/-- PUT /social-accounts/:id/sync — ownership guard, then re-write the
current metric values (the platform API call is unimplemented). -/
def syncSocialAccount (db : DB) (userId id : String) :
    Except ApiError SocialAccount × DB :=
  match SocialAccountService.getSocialAccountById db id with
  | none => (.error .notFound, db)
  | some existingAccount =>
    if existingAccount.userId ≠ userId then (.error .forbidden, db)
    else
      match SocialAccountService.updateAccountMetrics db id
          { followerCount := existingAccount.followerCount
            profileImageUrl := existingAccount.profileImageUrl
            isVerified := existingAccount.isVerified } with
      | .error _ => (.error .internal, db)
      | .ok (a', db') => (.ok a', db')

/-- DELETE /social-accounts/:id — ownership guard, then delete; P2025
becomes NOT_FOUND. -/
def disconnectSocialAccount (db : DB) (userId id : String) :
    Except ApiError Unit × DB :=
  match SocialAccountService.getSocialAccountById db id with
  | none => (.error .notFound, db)
  | some existingAccount =>
    if existingAccount.userId ≠ userId then (.error .forbidden, db)
    else
      match SocialAccountService.disconnectAccount db id with
      | .error e => (.error (remapP2025 e), db)
      | .ok (_, db') => (.ok (), db')

/-- GET /social-accounts/:id/analytics — ownership guard, then delegate
to the analytics aggregation; a missing payload is NOT_FOUND. -/
def getSocialAccountAnalytics (db : DB) (userId id : String)
    (days : Nat) (now : Int) :
    Except ApiError SocialAccountService.AccountAnalytics :=
  match SocialAccountService.getSocialAccountById db id with
  | none => .error .notFound
  | some existingAccount =>
    if existingAccount.userId ≠ userId then .error .forbidden
    else
      match SocialAccountService.getAccountAnalytics db id days now with
      | none => .error .notFound
      | some analytics => .ok analytics

end SocialController

namespace UsersController

/-- POST /users — create the profile; a P2002 (duplicate unique email)
raised by the store is translated to a BAD_REQUEST response
(`BadRequestException('Profile with this email already exists')`), even
though the route's own response annotation documents 409 for "Profile
already exists"; any other store failure is rethrown. -/
def createProfile (db : DB) (data : UserService.CreateProfileData) :
    Except ApiError Profile × DB :=
  match UserService.createProfile db data with
  | .ok (p, db') => (.ok p, db')
  | .error .p2002 => (.error .badRequest, db)
  | .error _ => (.error .internal, db)

end UsersController

/-! Helper lemmas about the store primitives. -/

/-- Rewriting all rows matched by `p` with a row that still matches `p`
makes `find?` return the new row whenever it previously found one. -/
theorem find?_updateMatching {α : Type} {l : List α} {p : α → Bool} {a' : α}
    (ha : p a' = true) {v : α} (hv : l.find? p = some v) :
    (updateMatching l p a').find? p = some a' := by
  induction l with
  | nil => simp [List.find?] at hv
  | cons b t ih =>
    by_cases hb : p b = true
    · simp only [updateMatching, List.map_cons, if_pos hb]
      exact List.find?_cons_of_pos _ ha
    · have hv' : t.find? p = some v := by
        rwa [List.find?_cons_of_neg _ hb] at hv
      simp only [updateMatching, List.map_cons, if_neg hb]
      rw [List.find?_cons_of_neg _ hb]
      exact ih hv'

/-- Appending a fresh row that matches `p` to a list with no match makes
`find?` return it. -/
theorem find?_concat_of_none {α : Type} {l : List α} {p : α → Bool}
    (h : l.find? p = none) {a : α} (ha : p a = true) :
    (l.concat a).find? p = some a := by
  rw [List.concat_eq_append, List.find?_append, h]
  simp [List.find?, ha]

/-- Variant of `find?_updateMatching` that only needs the previous lookup
to succeed, not its value. -/
theorem find?_updateMatching_isSome {α : Type} {l : List α} {p : α → Bool} {a' : α}
    (ha : p a' = true) (hv : (l.find? p).isSome = true) :
    (updateMatching l p a').find? p = some a' := by
  obtain ⟨v, hv⟩ := Option.isSome_iff_exists.mp hv
  exact find?_updateMatching ha hv

/-- A list whose mapped sum is positive is non-empty. -/
theorem length_pos_of_sum_map_pos {α : Type} {l : List α} {f : α → Nat}
    (h : 0 < (l.map f).sum) : 0 < l.length := by
  cases l with
  | nil => simp at h
  | cons a t => simp

/-! Concrete fixtures used by the witnesses and counterexamples. -/

/-- An active series owned by user u1. -/
def exSeries : Series :=
  { id := "s1", userId := "u1", templateId := none, name := "Tech"
    description := none, customPrompt := none
    visualStyle := [], voiceSettings := [], musicSettings := []
    videoDuration := 60, postingFrequency := 3, postingSchedule := []
    contentStyle := "engaging", useTrendingTopics := true, isActive := true
    totalVideosGenerated := 0, totalViews := 0, totalLikes := 0 }

/-- An inactive series owned by user u1. -/
def exSeriesInactive : Series := { exSeries with id := "s2", isActive := false }

/-- A queued video owned by user u1. -/
def exVideo : Video :=
  { id := "v1", userId := "u1", seriesId := "s1", title := "Intro"
    description := none, script := "script", promptUsed := "prompt"
    tags := [], generationSettings := [], status := "queued"
    generationProgress := 0, errorMessage := none, videoUrl := none, duration := none }

/-- An active youtube account owned by user u1, with two posts in the
recent window and one stale post. -/
def exAccount : SocialAccount :=
  { id := "a1", userId := "u1", platform := "youtube", platformUserId := "yt1"
    username := "creator", displayName := none, accessToken := "tok"
    refreshToken := none, followerCount := some 10, profileImageUrl := none
    isVerified := none, isActive := true, autoPost := false
    socialPosts :=
      [ { id := "p1", createdAt := 95, caption := none, publishedAt := none
          viewsCount := 4, likesCount := 2, commentsCount := 1, sharesCount := 1
          engagementRate := 0 },
        { id := "p2", createdAt := 80, caption := none, publishedAt := none
          viewsCount := 0, likesCount := 0, commentsCount := 0, sharesCount := 0
          engagementRate := 0 },
        { id := "p3", createdAt := 10, caption := none, publishedAt := none
          viewsCount := 1000, likesCount := 5, commentsCount := 5, sharesCount := 5
          engagementRate := 0 } ] }

/-- An account of the same (user, platform) pair whose connection was
deactivated. -/
def exAccountInactive : SocialAccount :=
  { exAccount with id := "a2", isActive := false, socialPosts := [] }

/-- The profile of user u1. -/
def exProfile : Profile :=
  { id := "u1", email := "u1@example.com", fullName := none, isActive := true }

/-- The store fixture. -/
def exDB : DB :=
  { profiles := [exProfile]
    userSeries := [exSeries, exSeriesInactive]
    videos := [exVideo]
    socialAccounts := [exAccount, exAccountInactive] }

/-- C4: an `updateSeriesStats` call on an existing series that supplies no
explicit generated-count stores the prior count plus one (the operation is
not idempotent), while views and likes keep their prior value unless
explicitly supplied. -/
theorem updateSeriesStats_defaults_bump_generated_count
    (db : DB) (id : String) (stats : SeriesService.StatsUpdate) (s : Series)
    (hs : db.userSeries.find? (fun w => w.id = id) = some s)
    (hgen : stats.totalVideosGenerated = none) :
    ∃ s' db', SeriesService.updateSeriesStats db id stats = .ok (s', db') ∧
      s'.totalVideosGenerated = s.totalVideosGenerated + 1 ∧
      s'.totalViews = stats.totalViews.getD s.totalViews ∧
      s'.totalLikes = stats.totalLikes.getD s.totalLikes ∧
      db'.userSeries.find? (fun w => w.id = id) = some s' := by
  have hid : s.id = id := by
    have := List.find?_some hs
    simpa using this
  simp only [SeriesService.updateSeriesStats, hs, hgen]
  refine ⟨_, _, rfl, rfl, rfl, rfl, ?_⟩
  exact find?_updateMatching (by simp [hid]) hs

/-- Witness for C4 at a concrete store: calling `updateSeriesStats` on s1
with an empty payload bumps the generated-count from 0 to 1. -/
theorem updateSeriesStats_defaults_bump_generated_count_witness :
    ∃ s' db', SeriesService.updateSeriesStats exDB "s1" {} = .ok (s', db') ∧
      s'.totalVideosGenerated = exSeries.totalVideosGenerated + 1 ∧
      s'.totalViews = Option.getD none exSeries.totalViews ∧
      s'.totalLikes = Option.getD none exSeries.totalLikes ∧
      db'.userSeries.find? (fun w => w.id = "s1") = some s' :=
  updateSeriesStats_defaults_bump_generated_count exDB "s1" {} exSeries (by decide) rfl

/-- C5: a connect request for a (user, platform) pair that already has an
ACTIVE social account is rejected with CONFLICT and the store is returned
unchanged — no new row, existing connection untouched. -/
theorem connect_duplicate_active_platform_conflict
    (db : DB) (userId newId : String) (dto : SocialController.ConnectSocialAccountDto)
    (a : SocialAccount)
    (hdup : SocialAccountService.getSocialAccountByPlatform db userId dto.platform = some a) :
    SocialController.connectSocialAccount db userId dto newId = (.error .conflict, db) := by
  simp [SocialController.connectSocialAccount, hdup]

/-- Witness for C5 at a concrete store: connecting youtube for u1 a second
time yields CONFLICT and leaves the store unchanged. -/
theorem connect_duplicate_active_platform_conflict_witness :
    SocialController.connectSocialAccount exDB "u1"
      { platform := "youtube", platformUserId := "yt2", username := "other"
        accessToken := "tok2" } "a9" = (.error .conflict, exDB) :=
  connect_duplicate_active_platform_conflict exDB "u1" "a9"
    { platform := "youtube", platformUserId := "yt2", username := "other"
      accessToken := "tok2" } exAccount (by decide)

/-- C9: the code at the failing input — creating a profile whose email
duplicates the stored unique email, so the store raises P2002 — responds
with BAD_REQUEST, not with the CONFLICT the specification (and the
route's own 409 response annotation) prescribe. -/
theorem createProfile_duplicate_email_yields_badRequest :
    UsersController.createProfile exDB
      { id := "u9", email := "u1@example.com", fullName := none } =
      (.error .badRequest, exDB) ∧
    (UsersController.createProfile exDB
      { id := "u9", email := "u1@example.com", fullName := none }).1 ≠
      .error .conflict := by
  decide

/-- The effective limit `dto.limit || 10` is always at least one. -/
theorem one_le_jsOrNat (x : Option Nat) (d : Nat) (hd : 1 ≤ d) : 1 ≤ jsOrNat x d := by
  unfold jsOrNat
  cases x with
  | none => exact hd
  | some n =>
    by_cases hn : n = 0
    · simpa [hn] using hd
    · simpa [hn] using Nat.one_le_iff_ne_zero.mpr hn

/-- C6: every paginated series-list response satisfies
`totalPages = ceil(total / limit)`, `hasNext = (page < totalPages)`,
`hasPrev = (page > 1)`, and carries at most `limit` items; the effective
limit is always at least 1, so the meta is computed with `limit >= 1`. -/
theorem paginated_user_series_meta_and_bound
    (db : DB) (userId : String) (dto : PaginationDto) (isActive : Option Bool)
    (r : Paginated Series)
    (hr : r = SeriesController.getUserSeries db userId dto isActive) :
    r.meta.totalPages = ⌈(r.meta.total : ℚ) / (r.meta.limit : ℚ)⌉₊ ∧
    (r.meta.hasNext = true ↔ r.meta.page < r.meta.totalPages) ∧
    (r.meta.hasPrev = true ↔ 1 < r.meta.page) ∧
    r.data.length ≤ r.meta.limit ∧
    1 ≤ r.meta.limit := by
  subst hr
  simp only [SeriesController.getUserSeries, Paginated.build]
  refine ⟨?_, ?_, ?_, ?_, ?_⟩
  · trivial
  · exact decide_eq_true_iff
  · exact decide_eq_true_iff
  · exact List.length_take_le _ _
  · exact one_le_jsOrNat _ _ (by omega)

/-- Witness for C6 at a concrete store: the first page of u1's series
list (default page/limit) has the computed meta and a bounded data
array. -/
theorem paginated_user_series_meta_and_bound_witness :
    (SeriesController.getUserSeries exDB "u1" {} none).meta.totalPages =
      ⌈((SeriesController.getUserSeries exDB "u1" {} none).meta.total : ℚ) /
        ((SeriesController.getUserSeries exDB "u1" {} none).meta.limit : ℚ)⌉₊ ∧
    ((SeriesController.getUserSeries exDB "u1" {} none).meta.hasNext = true ↔
      (SeriesController.getUserSeries exDB "u1" {} none).meta.page <
        (SeriesController.getUserSeries exDB "u1" {} none).meta.totalPages) ∧
    ((SeriesController.getUserSeries exDB "u1" {} none).meta.hasPrev = true ↔
      1 < (SeriesController.getUserSeries exDB "u1" {} none).meta.page) ∧
    (SeriesController.getUserSeries exDB "u1" {} none).data.length ≤
      (SeriesController.getUserSeries exDB "u1" {} none).meta.limit ∧
    1 ≤ (SeriesController.getUserSeries exDB "u1" {} none).meta.limit :=
  paginated_user_series_meta_and_bound exDB "u1" {} none _ rfl

/-- C7: for an analytics payload of an existing account over a positive
lookback window, the engagement rate is `(likes+comments+shares)/views *
100` over the windowed posts whenever views are positive and exactly 0
when views are 0 (no division fault), and posts-per-day is
`totalPosts / days`. -/
theorem account_analytics_engagement_and_rate
    (db : DB) (accountId : String) (days : Nat) (now : Int)
    (a : SocialAccountService.AccountAnalytics)
    (hd : 0 < days)
    (ha : SocialAccountService.getAccountAnalytics db accountId days now = some a) :
    (0 < a.metrics.totalViews →
      a.metrics.avgEngagementRate =
        (((a.metrics.totalLikes : ℚ) + (a.metrics.totalComments : ℚ) +
          (a.metrics.totalShares : ℚ)) / (a.metrics.totalViews : ℚ)) * 100) ∧
    (a.metrics.totalViews = 0 → a.metrics.avgEngagementRate = 0) ∧
    a.metrics.postsPerDay = (a.metrics.totalPosts : ℚ) / (days : ℚ) := by
  rcases hacc : db.socialAccounts.find? (fun w => w.id = accountId) with _ | account
  · simp [SocialAccountService.getAccountAnalytics, hacc] at ha
  · simp only [SocialAccountService.getAccountAnalytics, hacc, Option.some_inj] at ha
    subst ha
    refine ⟨?_, ?_, ?_⟩
    · intro hv
      simp only at hv ⊢
      have hp : 0 < (account.socialPosts.filter
          (fun p => decide (now - (days : Int) ≤ p.createdAt))).length :=
        length_pos_of_sum_map_pos hv
      rw [if_pos ⟨hp, hv⟩]
    · intro hv
      simp only at hv ⊢
      rw [if_neg]
      intro hcon
      exact absurd hv (Nat.pos_iff_ne_zero.mp hcon.2)
    · simp only
      rw [if_pos hd]

/-- Witness for C7 at a concrete store: over a 20-day window ending at
time 100, account a1 has an analytics payload, and its rates satisfy the
verified formulas. -/
theorem account_analytics_engagement_and_rate_witness :
    ∃ a, SocialAccountService.getAccountAnalytics exDB "a1" 20 100 = some a ∧
      ((0 < a.metrics.totalViews →
        a.metrics.avgEngagementRate =
          (((a.metrics.totalLikes : ℚ) + (a.metrics.totalComments : ℚ) +
            (a.metrics.totalShares : ℚ)) / (a.metrics.totalViews : ℚ)) * 100) ∧
      (a.metrics.totalViews = 0 → a.metrics.avgEngagementRate = 0) ∧
      a.metrics.postsPerDay = (a.metrics.totalPosts : ℚ) / (20 : ℚ)) := by
  refine ⟨_, rfl, ?_⟩
  exact account_analytics_engagement_and_rate exDB "a1" 20 100 _ (by decide) rfl

/-- C2: a generation request against an inactive series owned by the
caller fails with the precondition error (bad request) and returns the
store unchanged — no video row created, series counters untouched. -/
theorem generate_inactive_series_rejected_no_writes
    (db : DB) (userId newId defStatus : String) (defProgress : Nat)
    (dto : VideosController.GenerateVideoDto) (s : Series)
    (hs : SeriesService.getSeriesById db dto.seriesId = some s)
    (hown : s.userId = userId) (hinact : s.isActive = false) :
    VideosController.generateVideo db userId dto newId defStatus defProgress =
      (.error .badRequest, db) := by
  simp [VideosController.generateVideo, hs, hown, hinact]

/-- Witness for C2 at a concrete store: generating against the inactive
series s2 is rejected and the store is unchanged. -/
theorem generate_inactive_series_rejected_no_writes_witness :
    VideosController.generateVideo exDB "u1" { seriesId := "s2" } "v9" "draft" 0 =
      (.error .badRequest, exDB) :=
  generate_inactive_series_rejected_no_writes exDB "u1" "v9" "draft" 0
    { seriesId := "s2" } exSeriesInactive (by decide) (by decide) (by decide)

/-- C1: every single-resource operation on a series, video or social
account resolves the row first — an absent id yields NOT_FOUND — and only
then compares the row's owner with the caller, yielding FORBIDDEN on a
mismatch for any resource state (the state flags are universally
quantified inside the rows). -/
theorem ownership_guard_not_found_then_forbidden :
    (∀ db uid id, SeriesService.getSeriesById db id = none →
      SeriesController.getSeriesById db uid id = .error .notFound) ∧
    (∀ db uid id s, SeriesService.getSeriesById db id = some s → s.userId ≠ uid →
      SeriesController.getSeriesById db uid id = .error .forbidden) ∧
    (∀ db uid id dto, SeriesService.getSeriesById db id = none →
      (SeriesController.updateSeries db uid id dto).1 = .error .notFound) ∧
    (∀ db uid id dto s, SeriesService.getSeriesById db id = some s → s.userId ≠ uid →
      (SeriesController.updateSeries db uid id dto).1 = .error .forbidden) ∧
    (∀ db uid id b, SeriesService.getSeriesById db id = none →
      (SeriesController.toggleSeriesStatus db uid id b).1 = .error .notFound) ∧
    (∀ db uid id b s, SeriesService.getSeriesById db id = some s → s.userId ≠ uid →
      (SeriesController.toggleSeriesStatus db uid id b).1 = .error .forbidden) ∧
    (∀ db uid id, SeriesService.getSeriesById db id = none →
      (SeriesController.deleteSeries db uid id).1 = .error .notFound) ∧
    (∀ db uid id s, SeriesService.getSeriesById db id = some s → s.userId ≠ uid →
      (SeriesController.deleteSeries db uid id).1 = .error .forbidden) ∧
    (∀ db uid id, SeriesService.getSeriesById db id = none →
      SeriesController.getSeriesAnalytics db uid id = .error .notFound) ∧
    (∀ db uid id s, SeriesService.getSeriesById db id = some s → s.userId ≠ uid →
      SeriesController.getSeriesAnalytics db uid id = .error .forbidden) ∧
    (∀ db uid id, VideoService.findVideoById db id = none →
      VideosController.getVideoById db uid id = .error .notFound) ∧
    (∀ db uid id v, VideoService.findVideoById db id = some v → v.userId ≠ uid →
      VideosController.getVideoById db uid id = .error .forbidden) ∧
    (∀ db uid id dto, VideoService.findVideoById db id = none →
      (VideosController.updateVideo db uid id dto).1 = .error .notFound) ∧
    (∀ db uid id dto v, VideoService.findVideoById db id = some v → v.userId ≠ uid →
      (VideosController.updateVideo db uid id dto).1 = .error .forbidden) ∧
    (∀ db uid id, VideoService.findVideoById db id = none →
      (VideosController.deleteVideo db uid id).1 = .error .notFound) ∧
    (∀ db uid id v, VideoService.findVideoById db id = some v → v.userId ≠ uid →
      (VideosController.deleteVideo db uid id).1 = .error .forbidden) ∧
    (∀ db uid id, SocialAccountService.getSocialAccountById db id = none →
      SocialController.getSocialAccountById db uid id = .error .notFound) ∧
    (∀ db uid id a, SocialAccountService.getSocialAccountById db id = some a →
      a.userId ≠ uid →
      SocialController.getSocialAccountById db uid id = .error .forbidden) ∧
    (∀ db uid id dto, SocialAccountService.getSocialAccountById db id = none →
      (SocialController.updateSocialAccount db uid id dto).1 = .error .notFound) ∧
    (∀ db uid id dto a, SocialAccountService.getSocialAccountById db id = some a →
      a.userId ≠ uid →
      (SocialController.updateSocialAccount db uid id dto).1 = .error .forbidden) ∧
    (∀ db uid id b, SocialAccountService.getSocialAccountById db id = none →
      (SocialController.toggleAutoPost db uid id b).1 = .error .notFound) ∧
    (∀ db uid id b a, SocialAccountService.getSocialAccountById db id = some a →
      a.userId ≠ uid →
      (SocialController.toggleAutoPost db uid id b).1 = .error .forbidden) ∧
    (∀ db uid id, SocialAccountService.getSocialAccountById db id = none →
      (SocialController.syncSocialAccount db uid id).1 = .error .notFound) ∧
    (∀ db uid id a, SocialAccountService.getSocialAccountById db id = some a →
      a.userId ≠ uid →
      (SocialController.syncSocialAccount db uid id).1 = .error .forbidden) ∧
    (∀ db uid id, SocialAccountService.getSocialAccountById db id = none →
      (SocialController.disconnectSocialAccount db uid id).1 = .error .notFound) ∧
    (∀ db uid id a, SocialAccountService.getSocialAccountById db id = some a →
      a.userId ≠ uid →
      (SocialController.disconnectSocialAccount db uid id).1 = .error .forbidden) ∧
    (∀ db uid id days now, SocialAccountService.getSocialAccountById db id = none →
      SocialController.getSocialAccountAnalytics db uid id days now = .error .notFound) ∧
    (∀ db uid id days now a, SocialAccountService.getSocialAccountById db id = some a →
      a.userId ≠ uid →
      SocialController.getSocialAccountAnalytics db uid id days now = .error .forbidden) := by
  refine ⟨?_, ?_, ?_, ?_, ?_, ?_, ?_, ?_, ?_, ?_, ?_, ?_, ?_, ?_, ?_, ?_, ?_, ?_,
    ?_, ?_, ?_, ?_, ?_, ?_, ?_, ?_, ?_, ?_⟩ <;> intros <;>
    simp_all [SeriesController.getSeriesById, SeriesController.updateSeries,
      SeriesController.toggleSeriesStatus, SeriesController.deleteSeries,
      SeriesController.getSeriesAnalytics, VideosController.getVideoById,
      VideosController.updateVideo, VideosController.deleteVideo,
      SocialController.getSocialAccountById, SocialController.updateSocialAccount,
      SocialController.toggleAutoPost, SocialController.syncSocialAccount,
      SocialController.disconnectSocialAccount,
      SocialController.getSocialAccountAnalytics]

/-- Witness for C1 at a concrete store: a missing id yields NOT_FOUND,
and for user u2 every existing resource of u1 — active series s1,
inactive series s2, video v1, social account a1 — yields FORBIDDEN. -/
theorem ownership_guard_not_found_then_forbidden_witness :
    SeriesController.getSeriesById exDB "u2" "missing" = .error .notFound ∧
    SeriesController.getSeriesById exDB "u2" "s1" = .error .forbidden ∧
    SeriesController.getSeriesById exDB "u2" "s2" = .error .forbidden ∧
    VideosController.getVideoById exDB "u2" "v1" = .error .forbidden ∧
    SocialController.getSocialAccountById exDB "u2" "a1" = .error .forbidden := by
  refine ⟨?_, ?_, ?_, ?_, ?_⟩
  · exact ownership_guard_not_found_then_forbidden.1 exDB "u2" "missing" (by decide)
  · exact ownership_guard_not_found_then_forbidden.2.1 exDB "u2" "s1" exSeries
      (by decide) (by decide)
  · exact ownership_guard_not_found_then_forbidden.2.1 exDB "u2" "s2" exSeriesInactive
      (by decide) (by decide)
  · exact ownership_guard_not_found_then_forbidden.2.2.2.2.2.2.2.2.2.2.2.1 exDB "u2" "v1"
      exVideo (by decide) (by decide)
  · exact ownership_guard_not_found_then_forbidden.2.2.2.2.2.2.2.2.2.2.2.2.2.2.2.2.2.1
      exDB "u2" "a1" exAccount (by decide) (by decide)

/-- Unfolding lemma: a status update on a present video row writes the
status, conditionally the progress and the (truthy) error message, and
the row remains findable. -/
theorem updateVideoStatus_found (db : DB) (id st : String) (pr : Option Nat)
    (em : Option String) (v : Video)
    (hv : db.videos.find? (fun w => w.id = id) = some v) :
    ∃ v' db', VideoService.updateVideoStatus db id st pr em = .ok (v', db') ∧
      v'.status = st ∧ v'.generationProgress = pr.getD v.generationProgress ∧
      v'.errorMessage = (if jsTruthyStr em then em else v.errorMessage) ∧
      db'.videos.find? (fun w => w.id = id) = some v' := by
  have hid : v.id = id := by simpa using List.find?_some hv
  simp only [VideoService.updateVideoStatus, hv]
  refine ⟨_, _, rfl, rfl, rfl, rfl, ?_⟩
  exact find?_updateMatching (by simp [hid]) hv

/-- Unfolding lemma: a content update on a present video row forces the
`ready` status at progress 100, and the row remains findable. -/
theorem updateVideoContent_found (db : DB) (id : String)
    (data : VideoService.VideoContentUpdate) (v : Video)
    (hv : db.videos.find? (fun w => w.id = id) = some v) :
    ∃ v' db', VideoService.updateVideoContent db id data = .ok (v', db') ∧
      v'.status = "ready" ∧ v'.generationProgress = 100 ∧
      db'.videos.find? (fun w => w.id = id) = some v' := by
  have hid : v.id = id := by simpa using List.find?_some hv
  simp only [VideoService.updateVideoContent, hv]
  refine ⟨_, _, rfl, rfl, rfl, ?_⟩
  exact find?_updateMatching (by simp [hid]) hv

/-- C10: a video update request on an owned existing video that supplies
at least one content field (in the controller's truthiness sense) leaves
the stored video in status `ready` at progress 100, whether or not a
status accompanied the request. -/
theorem content_update_forces_ready
    (db : DB) (uid id : String) (dto : VideosController.UpdateVideoDto) (v : Video)
    (hv0 : db.videos.find? (fun w => w.id = id) = some v)
    (hown : v.userId = uid)
    (hc : VideosController.hasContentFields dto = true) :
    ∃ v', (VideosController.updateVideo db uid id dto).1 = .ok v' ∧
      (VideosController.updateVideo db uid id dto).2.videos.find?
        (fun w => w.id = id) = some v' ∧
      v'.status = "ready" ∧ v'.generationProgress = 100 := by
  rcases hst : dto.status with _ | st
  · obtain ⟨v2, db2, h1, h2, h3, h4⟩ :=
      updateVideoContent_found db id (VideosController.updateDataOf dto) v hv0
    refine ⟨v2, ?_, ?_, h2, h3⟩ <;>
      simp [VideosController.updateVideo, VideoService.findVideoById, hv0, hown,
        hst, hc, h1, Except.map, h4]
  · obtain ⟨v1, db1, h1, _, _, _, hf1⟩ :=
      updateVideoStatus_found db id st dto.generationProgress dto.errorMessage v hv0
    obtain ⟨v2, db2, g1, g2, g3, g4⟩ :=
      updateVideoContent_found db1 id (VideosController.updateDataOf dto) v1 hf1
    refine ⟨v2, ?_, ?_, g2, g3⟩ <;>
      simp [VideosController.updateVideo, VideoService.findVideoById, hv0, hown,
        hst, hc, h1, g1, Except.map, g4]

/-- Witness for C10 at a concrete store: a title-only edit of queued
video v1 stores it as `ready` at progress 100. -/
theorem content_update_forces_ready_witness :
    ∃ v', (VideosController.updateVideo exDB "u1" "v1" { title := some "New" }).1 = .ok v' ∧
      (VideosController.updateVideo exDB "u1" "v1" { title := some "New" }).2.videos.find?
        (fun w => w.id = "v1") = some v' ∧
      v'.status = "ready" ∧ v'.generationProgress = 100 :=
  content_update_forces_ready exDB "u1" "v1" { title := some "New" } exVideo
    (by decide) (by decide) (by decide)

/-- C8 counterexample: on the concrete store, an update request that
supplies only a progress value (50), or only an error message, with no
status, leaves the stored video completely unchanged — its progress stays
0 and its error message stays empty, so the supplied field was NOT
written. -/
theorem progress_only_update_is_dropped :
    (VideosController.updateVideo exDB "u1" "v1"
      { generationProgress := some 50 }).2.videos.find?
        (fun w => w.id = "v1") = some exVideo ∧
    exVideo.generationProgress = 0 ∧
    (VideosController.updateVideo exDB "u1" "v1"
      { errorMessage := some "boom" }).2.videos.find?
        (fun w => w.id = "v1") = some exVideo ∧
    exVideo.errorMessage = none := by
  decide

/-- C8 (amended): in a video update request on an owned existing video
with no content fields, the progress and error-message fields are applied
(independently of each other) only when a status value accompanies them;
with no status, the request changes nothing — a progress-only or
error-only request leaves the stored video unchanged. -/
theorem status_update_fields_require_status
    (db : DB) (uid id : String) (dto : VideosController.UpdateVideoDto) (v : Video)
    (hv0 : db.videos.find? (fun w => w.id = id) = some v)
    (hown : v.userId = uid)
    (hnc : VideosController.hasContentFields dto = false) :
    (∀ st, dto.status = some st →
      ∃ v', (VideosController.updateVideo db uid id dto).1 = .ok v' ∧
        (VideosController.updateVideo db uid id dto).2.videos.find?
          (fun w => w.id = id) = some v' ∧
        v'.status = st ∧
        v'.generationProgress = dto.generationProgress.getD v.generationProgress ∧
        v'.errorMessage =
          (if jsTruthyStr dto.errorMessage then dto.errorMessage else v.errorMessage)) ∧
    (dto.status = none →
      VideosController.updateVideo db uid id dto = (.ok v, db)) := by
  constructor
  · intro st hst
    obtain ⟨v1, db1, h1, h2, h3, h4, hf1⟩ :=
      updateVideoStatus_found db id st dto.generationProgress dto.errorMessage v hv0
    refine ⟨v1, ?_, ?_, h2, h3, h4⟩ <;>
      simp [VideosController.updateVideo, VideoService.findVideoById, hv0, hown,
        hst, hnc, h1, Except.map, hf1]
  · intro hst
    simp [VideosController.updateVideo, VideoService.findVideoById, hv0, hown, hst, hnc]

/-- Witness for the amended C8 at a concrete store: supplying progress 40
together with status `processing` stores both; the error message stays
untouched. -/
theorem status_update_fields_require_status_witness :
    ∃ v', (VideosController.updateVideo exDB "u1" "v1"
        { status := some "processing", generationProgress := some 40 }).1 = .ok v' ∧
      (VideosController.updateVideo exDB "u1" "v1"
        { status := some "processing", generationProgress := some 40 }).2.videos.find?
        (fun w => w.id = "v1") = some v' ∧
      v'.status = "processing" ∧
      v'.generationProgress = 40 ∧
      v'.errorMessage = none :=
  (status_update_fields_require_status exDB "u1" "v1"
    { status := some "processing", generationProgress := some 40 } exVideo
    (by decide) (by decide) (by decide)).1 "processing" rfl

/-- C3: a generation request against an active owned series succeeds; the
created and stored video is `queued` at progress 0 with the placeholder
script, its title defaults to `"<series name> Episode <N+1>"` when no
topic is supplied, and the series' generated-count is incremented by
exactly one (views and likes untouched). -/
theorem generate_video_success_effects
    (db : DB) (uid newId defStatus : String) (defProgress : Nat)
    (dto : VideosController.GenerateVideoDto) (s : Series)
    (hs0 : db.userSeries.find? (fun w => w.id = dto.seriesId) = some s)
    (hown : s.userId = uid) (hact : s.isActive = true)
    (htopic : dto.topic = none)
    (hfresh : db.videos.find? (fun w => w.id = newId) = none) :
    (∃ resp, (VideosController.generateVideo db uid dto newId defStatus defProgress).1 =
        .ok resp ∧ resp.status = "queued" ∧ resp.generationProgress = 0) ∧
    (∃ v, (VideosController.generateVideo db uid dto newId defStatus defProgress).2.videos.find?
        (fun w => w.id = newId) = some v ∧
      v.status = "queued" ∧ v.generationProgress = 0 ∧
      v.script = "[AI Generated Script - Processing...]" ∧
      v.title = s.name ++ " Episode " ++ toString (s.totalVideosGenerated + 1)) ∧
    (∃ s', (VideosController.generateVideo db uid dto newId defStatus defProgress).2.userSeries.find?
        (fun w => w.id = dto.seriesId) = some s' ∧
      s'.totalVideosGenerated = s.totalVideosGenerated + 1 ∧
      s'.totalViews = s.totalViews ∧ s'.totalLikes = s.totalLikes) := by
  have hsid : s.id = dto.seriesId := by simpa using List.find?_some hs0
  simp [VideosController.generateVideo, SeriesService.getSeriesById, hs0, hown, hact,
    htopic, jsOrStr, VideoService.createVideo, VideoService.updateVideoStatus,
    SeriesService.updateSeriesStats, List.concat_eq_append, List.find?_append, hfresh,
    Option.none_or, List.find?_cons, jsTruthyStr]
  constructor
  · exact ⟨_, find?_updateMatching_isSome (by simp)
      (by simp [List.find?_append, hfresh, Option.none_or]), rfl, rfl, rfl, rfl⟩
  · exact ⟨_, find?_updateMatching_isSome (by simp [hsid]) (by simp [hs0]),
      rfl, rfl, rfl⟩

/-- Witness for C3 at a concrete store: generating against the fresh
active series s1 (no topic) stores a queued video titled
`Tech Episode 1` and bumps the counter from 0 to 1. -/
theorem generate_video_success_effects_witness :
    (∃ resp, (VideosController.generateVideo exDB "u1" { seriesId := "s1" } "v9" "draft" 7).1 =
        .ok resp ∧ resp.status = "queued" ∧ resp.generationProgress = 0) ∧
    (∃ v, (VideosController.generateVideo exDB "u1"
          { seriesId := "s1" } "v9" "draft" 7).2.videos.find?
        (fun w => w.id = "v9") = some v ∧
      v.status = "queued" ∧ v.generationProgress = 0 ∧
      v.script = "[AI Generated Script - Processing...]" ∧
      v.title = exSeries.name ++ " Episode " ++ toString (exSeries.totalVideosGenerated + 1)) ∧
    (∃ s', (VideosController.generateVideo exDB "u1"
          { seriesId := "s1" } "v9" "draft" 7).2.userSeries.find?
        (fun w => w.id = "s1") = some s' ∧
      s'.totalVideosGenerated = exSeries.totalVideosGenerated + 1 ∧
      s'.totalViews = exSeries.totalViews ∧ s'.totalLikes = exSeries.totalLikes) :=
  generate_video_success_effects exDB "u1" "v9" "draft" 7 { seriesId := "s1" } exSeries
    (by decide) (by decide) (by decide) rfl (by decide)
